import Mathlib

/-
Verification of the Revolt-Voice-Chat backend (Backend/server.js and
Backend/wsProxy.js) against its natural-language specification.

The embedding models:
  * the JavaScript JSON value space (`Json`), `JSON.parse` (`jsonParse`) and
    `JSON.stringify` (`jsonStringify`), since the bridge branches on parse
    results and re-serializes parsed frames;
  * the client-to-upstream message handler of wsProxy.js (`clientMessageHandler`);
  * the per-event handlers wired on the two sockets and their best-effort
    (try/catch-swallowed) execution of send/close attempts;
  * the HTTP `/session` handler and the `/ws` connection handler of server.js
    together with the in-memory `sessionsMap` registry.

Modelling notes:
  * JSON numbers are kept as their source lexeme (validated against the JSON
    number grammar).  JavaScript would normalize the printed form of a double;
    no claim under verification depends on number formatting, only on parse
    success/failure and truthiness.
  * Recursive functions over the JSON tree are written with an explicit fuel
    argument (structural recursion on `Nat`) so that every definition reduces
    inside the kernel; the fuel bounds chosen (input length for the parser,
    node count `jsonSize` for the printer) are strictly larger than the
    recursion depth of any input.
  * JS property access on `null` throws a TypeError.  The `parsed.type` check
    of wsProxy.js is therefore modelled with `Except` (`propAccess`,
    `isStopControlTry`); the TypeError lands in the same catch as a parse
    failure and forwards the original text verbatim.
-/

/-- A JavaScript JSON value (the image of `JSON.parse`).  Object members are
kept in insertion order with unique keys, matching JS object semantics
(duplicate keys in the source text keep the first position, last value). -/
inductive Json where
  | null : Json
  | bool (b : Bool) : Json
  | num (raw : String) : Json
  | str (s : String) : Json
  | arr (elems : List Json) : Json
  | obj (members : List (String × Json)) : Json
deriving Repr

def lbrace : Char := Char.ofNat 123

def rbrace : Char := Char.ofNat 125

def isJsonWs (c : Char) : Bool :=
  c = ' ' || c = '\t' || c = '\n' || c = '\x0d'

def skipWs : List Char → List Char
  | [] => []
  | c :: cs => if isJsonWs c then skipWs cs else c :: cs

def isDigit (c : Char) : Bool := '0' ≤ c && c ≤ '9'

/-- Value of one hexadecimal digit (code points 48-57, 97-102, 65-70). -/
def hexDigitVal (c : Char) : Option Nat :=
  let n := c.toNat
  if 48 ≤ n ∧ n ≤ 57 then some (n - 48)
  else if 97 ≤ n ∧ n ≤ 102 then some (n - 87)
  else if 65 ≤ n ∧ n ≤ 70 then some (n - 55)
  else none

/-- Body of a JSON string literal, after the opening quote: JSON escape
sequences are decoded, raw control characters are rejected. -/
def parseStringBody : List Char → List Char → Option (String × List Char)
  | _, [] => none
  | acc, c :: cs =>
    if c = '"' then some (String.mk acc.reverse, cs)
    else if c = '\\' then
      match cs with
      | [] => none
      | e :: cs2 =>
        if e = '"' then parseStringBody ('"' :: acc) cs2
        else if e = '\\' then parseStringBody ('\\' :: acc) cs2
        else if e = '/' then parseStringBody ('/' :: acc) cs2
        else if e = 'b' then parseStringBody (Char.ofNat 8 :: acc) cs2
        else if e = 'f' then parseStringBody (Char.ofNat 12 :: acc) cs2
        else if e = 'n' then parseStringBody ('\n' :: acc) cs2
        else if e = 'r' then parseStringBody (Char.ofNat 13 :: acc) cs2
        else if e = 't' then parseStringBody ('\t' :: acc) cs2
        else if e = 'u' then
          match cs2 with
          | h1 :: h2 :: h3 :: h4 :: cs3 =>
            match hexDigitVal h1, hexDigitVal h2, hexDigitVal h3, hexDigitVal h4 with
            | some a, some b, some c2, some d =>
              parseStringBody (Char.ofNat (a * 4096 + b * 256 + c2 * 16 + d) :: acc) cs3
            | _, _, _, _ => none
          | _ => none
        else none
    else if c.toNat < 32 then none
    else parseStringBody (c :: acc) cs

def takeDigits : List Char → List Char × List Char
  | [] => ([], [])
  | c :: cs =>
    if isDigit c then
      let p := takeDigits cs
      (c :: p.1, p.2)
    else ([], c :: cs)

/-- Optional fraction part of a JSON number (the lexeme including the dot). -/
def parseFrac (cs : List Char) : Option (List Char × List Char) :=
  match cs with
  | '.' :: rest =>
    match takeDigits rest with
    | ([], _) => none
    | (ds, r) => some ('.' :: ds, r)
  | _ => some ([], cs)

/-- Optional exponent part of a JSON number (the lexeme including e/E). -/
def parseExp (cs : List Char) : Option (List Char × List Char) :=
  match cs with
  | [] => some ([], [])
  | c :: rest =>
    if c = 'e' || c = 'E' then
      let p : List Char × List Char :=
        match rest with
        | '+' :: r => (['+'], r)
        | '-' :: r => (['-'], r)
        | _ => ([], rest)
      match takeDigits p.2 with
      | ([], _) => none
      | (ds, r) => some (c :: (p.1 ++ ds), r)
    else some ([], c :: rest)

/-- A JSON number lexeme: `-?(0|[1-9][0-9]*)(.[0-9]+)?([eE][+-]?[0-9]+)?`. -/
def parseNumber (cs : List Char) : Option (String × List Char) :=
  let p : List Char × List Char :=
    match cs with
    | '-' :: rest => (['-'], rest)
    | _ => ([], cs)
  match p.2 with
  | [] => none
  | '0' :: rest =>
    (match parseFrac rest with
     | none => none
     | some (f, cs3) =>
       match parseExp cs3 with
       | none => none
       | some (e, cs4) => some (String.mk (p.1 ++ '0' :: (f ++ e)), cs4))
  | c :: _ =>
    if '1' ≤ c && c ≤ '9' then
      match takeDigits p.2 with
      | (ds, cs2) =>
        match parseFrac cs2 with
        | none => none
        | some (f, cs3) =>
          match parseExp cs3 with
          | none => none
          | some (e, cs4) => some (String.mk (p.1 ++ ds ++ f ++ e), cs4)
    else none

/-- JS object member insertion: an existing key keeps its position and gets the
new value (as in `JSON.parse` for duplicate keys and in `Map.prototype.set`);
a new key is appended at the end. -/
def insertMember (k : String) (v : Json) : List (String × Json) → List (String × Json)
  | [] => [(k, v)]
  | (k1, v1) :: rest => if k1 = k then (k, v) :: rest else (k1, v1) :: insertMember k v rest

/-- Parser mode: a whole value, the tail of an array after at least one
element, or the members of an object starting at a key. -/
inductive PMode where
  | value : PMode
  | arrayTail (acc : List Json) : PMode
  | objMember (acc : List (String × Json)) : PMode

/-- Recursive-descent JSON parser; structural recursion on the fuel so that it
reduces definitionally.  Fuel is consumed on every nested parse, and at least
one input character is consumed per unit of fuel, so `length + 1` fuel always
suffices at top level. -/
def parseStep : Nat → PMode → List Char → Option (Json × List Char)
  | 0, _, _ => none
  | Nat.succ fuel, PMode.value, cs =>
    (match skipWs cs with
     | [] => none
     | c :: rest =>
       if c = 'n' then
         match rest with
         | 'u' :: 'l' :: 'l' :: r => some (Json.null, r)
         | _ => none
       else if c = 't' then
         match rest with
         | 'r' :: 'u' :: 'e' :: r => some (Json.bool true, r)
         | _ => none
       else if c = 'f' then
         match rest with
         | 'a' :: 'l' :: 's' :: 'e' :: r => some (Json.bool false, r)
         | _ => none
       else if c = '"' then
         match parseStringBody [] rest with
         | some (s, r) => some (Json.str s, r)
         | none => none
       else if c = '[' then
         match skipWs rest with
         | ']' :: r => some (Json.arr [], r)
         | rest2 =>
           match parseStep fuel PMode.value rest2 with
           | some (v, r) => parseStep fuel (PMode.arrayTail [v]) r
           | none => none
       else if c = lbrace then
         match skipWs rest with
         | c2 :: r =>
           if c2 = rbrace then some (Json.obj [], r)
           else parseStep fuel (PMode.objMember []) (c2 :: r)
         | [] => none
       else
         match parseNumber (c :: rest) with
         | some (lex, r) => some (Json.num lex, r)
         | none => none)
  | Nat.succ fuel, PMode.arrayTail acc, cs =>
    (match skipWs cs with
     | ',' :: rest =>
       (match parseStep fuel PMode.value rest with
        | some (v, r) => parseStep fuel (PMode.arrayTail (acc ++ [v])) r
        | none => none)
     | ']' :: rest => some (Json.arr acc, rest)
     | _ => none)
  | Nat.succ fuel, PMode.objMember acc, cs =>
    (match skipWs cs with
     | '"' :: rest =>
       (match parseStringBody [] rest with
        | some (k, r) =>
          (match skipWs r with
           | ':' :: r2 =>
             (match parseStep fuel PMode.value r2 with
              | some (v, r3) =>
                (match skipWs r3 with
                 | ',' :: r4 => parseStep fuel (PMode.objMember (insertMember k v acc)) r4
                 | c3 :: r4 =>
                   if c3 = rbrace then some (Json.obj (insertMember k v acc), r4) else none
                 | [] => none)
              | none => none)
           | _ => none)
        | none => none)
     | _ => none)

/-- `JSON.parse`: the whole input (up to trailing whitespace) must be consumed. -/
def jsonParse (s : String) : Option Json :=
  match parseStep (s.length + 1) PMode.value s.data with
  | some (j, rest) => if skipWs rest = [] then some j else none
  | none => none

def hexDigit (n : Nat) : Char :=
  if n < 10 then Char.ofNat ('0'.toNat + n) else Char.ofNat ('a'.toNat + (n - 10))

/-- `JSON.stringify` escaping for one character of a string value: quote,
backslash, the named control escapes, and `\u00xx` for other control
characters. -/
def escapeChar (c : Char) : List Char :=
  if c = '"' then ['\\', '"']
  else if c = '\\' then ['\\', '\\']
  else if c = Char.ofNat 8 then ['\\', 'b']
  else if c = '\t' then ['\\', 't']
  else if c = '\n' then ['\\', 'n']
  else if c = Char.ofNat 12 then ['\\', 'f']
  else if c = Char.ofNat 13 then ['\\', 'r']
  else if c.toNat < 32 then ['\\', 'u', '0', '0', hexDigit (c.toNat / 16), hexDigit (c.toNat % 16)]
  else [c]

def quoteString (s : String) : String :=
  "\"" ++ String.mk (s.data.map escapeChar).flatten ++ "\""

/-- Printer mode: a whole value, the remaining elements of an array, or the
remaining members of an object. -/
inductive SMode where
  | val (j : Json) : SMode
  | arrTail (xs : List Json) : SMode
  | objTail (ms : List (String × Json)) : SMode

/-- `JSON.stringify`, with fuel (structural recursion on `Nat`); one unit of
fuel is consumed per tree node, so any fuel of at least `sizeOf` suffices. -/
def stringifyStep : Nat → SMode → String
  | 0, _ => ""
  | Nat.succ fuel, SMode.val j =>
    (match j with
     | Json.null => "null"
     | Json.bool b => if b then "true" else "false"
     | Json.num raw => raw
     | Json.str s => quoteString s
     | Json.arr [] => "[]"
     | Json.arr (x :: xs) =>
       "[" ++ stringifyStep fuel (SMode.val x) ++ stringifyStep fuel (SMode.arrTail xs) ++ "]"
     | Json.obj [] => "\x7b\x7d"
     | Json.obj ((k, v) :: ms) =>
       "\x7b" ++ quoteString k ++ ":" ++ stringifyStep fuel (SMode.val v) ++
         stringifyStep fuel (SMode.objTail ms) ++ "\x7d")
  | Nat.succ _, SMode.arrTail [] => ""
  | Nat.succ fuel, SMode.arrTail (x :: xs) =>
    "," ++ stringifyStep fuel (SMode.val x) ++ stringifyStep fuel (SMode.arrTail xs)
  | Nat.succ _, SMode.objTail [] => ""
  | Nat.succ fuel, SMode.objTail ((k, v) :: ms) =>
    "," ++ quoteString k ++ ":" ++ stringifyStep fuel (SMode.val v) ++
      stringifyStep fuel (SMode.objTail ms)

/-- Node count of a JSON tree; an upper bound on its depth, used as printer
fuel. -/
def jsonSize : Json → Nat
  | Json.null => 1
  | Json.bool _ => 1
  | Json.num _ => 1
  | Json.str _ => 1
  | Json.arr [] => 1
  | Json.arr (x :: xs) => 1 + jsonSize x + jsonSize (Json.arr xs)
  | Json.obj [] => 1
  | Json.obj ((_, v) :: ms) => 1 + jsonSize v + jsonSize (Json.obj ms)

def jsonStringify (j : Json) : String :=
  stringifyStep (jsonSize j + 1) (SMode.val j)

def lookupMember (k : String) : List (String × Json) → Option Json
  | [] => none
  | (k1, v) :: ms => if k1 = k then some v else lookupMember k ms

/-- JS property access `j.k` for a value known to be non-null at the access
site (wsProxy.js line 18 reads `remoteSession.wsUrl` only after server.js has
checked `remoteSession` truthy, so it can never be JSON null there): an object
yields the property value or `undefined` (`none`); every other non-null value
yields `undefined`.  Property access on `null`, which throws a TypeError in
JS, is modelled separately by `propAccess`. -/
def getField (j : Json) (k : String) : Option Json :=
  match j with
  | Json.obj ms => lookupMember k ms
  | _ => none

/-- Whether a JS property-access result (`none` = `undefined`) is strictly
equal (`===`) to the string literal `s`. -/
def isStr (o : Option Json) (s : String) : Bool :=
  match o with
  | some (Json.str t) => t = s
  | _ => false

/-- JS property access `j.k` in a position where `j` may be any parsed JSON
value, as at `parsed.type` in wsProxy.js: access on `null` throws a TypeError
(`Except.error ()`); an object yields the property value or `undefined`; any
other value yields `undefined`. -/
def propAccess : Json → String → Except Unit (Option Json)
  | Json.null, _ => Except.error ()
  | Json.obj ms, k => Except.ok (lookupMember k ms)
  | _, _ => Except.ok none

/-- The try-block condition `parsed.type === "control" && parsed.action ===
"stop"` of wsProxy.js line 68, with `&&` short-circuit and with the TypeError
of property access on `null` propagating to the enclosing catch. -/
def isStopControlTry (j : Json) : Except Unit Bool :=
  match propAccess j "type" with
  | Except.error e => Except.error e
  | Except.ok t =>
    if isStr t "control" then
      match propAccess j "action" with
      | Except.error e => Except.error e
      | Except.ok a => Except.ok (isStr a "stop")
    else Except.ok false

/-- Whether the condition of wsProxy.js line 68 evaluates, without throwing,
to true. -/
def isStopControl (j : Json) : Bool :=
  match isStopControlTry j with
  | Except.ok b => b
  | Except.error _ => false

/-- Whether every mantissa digit of a JSON number lexeme is zero, i.e. the
numeric value is zero. -/
def numIsZero (raw : String) : Bool :=
  (raw.data.takeWhile (fun c => !(c = 'e' || c = 'E'))).all
    (fun c => c = '0' || c = '-' || c = '.')

/-- JavaScript truthiness of a JSON value. -/
def jsTruthy : Json → Bool
  | Json.null => false
  | Json.bool b => b
  | Json.num raw => !numIsZero raw
  | Json.str s => !(s = "")
  | Json.arr _ => true
  | Json.obj _ => true

/-- A WebSocket frame: text (structured) or binary, as distinguished by
`typeof msg === "string"` in wsProxy.js. -/
inductive Frame where
  | text (s : String) : Frame
  | binary (bytes : List Nat) : Frame
deriving Repr, DecidableEq

/-- The upstream interrupt frame `JSON.stringify({ type: "input.stop" })` sent
by wsProxy.js for a client stop control. -/
def interruptFrame : String := jsonStringify (Json.obj [("type", Json.str "input.stop")])

/-- The client-to-upstream message handler of wsProxy.js
(`clientWs.on("message")`, lines 58 to 86): a text frame is JSON-parsed; a
control/stop frame becomes the upstream interrupt frame and any other parsed
frame is re-serialized and forwarded — unless the condition check throws (the
TypeError of `parsed.type` on a parsed `null`), in which case the catch
forwards the original text verbatim, exactly as it does for a parse failure.
A binary frame is forwarded directly.  The result is the list of frames sent
to the upstream socket. -/
def clientMessageHandler : Frame → List Frame
  | Frame.text s =>
    (match jsonParse s with
     | some parsed =>
       (match isStopControlTry parsed with
        | Except.error _ => [Frame.text s]
        | Except.ok true => [Frame.text interruptFrame]
        | Except.ok false => [Frame.text (jsonStringify parsed)])
     | none => [Frame.text s])
  | Frame.binary b => [Frame.binary b]

/-- The `proxy_ready` frame sent to the client when the upstream socket opens. -/
def proxyReadyFrame : String := jsonStringify (Json.obj [("type", Json.str "proxy_ready")])

/-- The frame sent to the client by the upstream error handler of wsProxy.js. -/
def remoteErrorFrame : String :=
  jsonStringify (Json.obj [("type", Json.str "error"), ("message", Json.str "Remote WS error")])

/-- Events observed on the upstream (remote) socket after establishment. -/
inductive RemoteEvent where
  | opened : RemoteEvent
  | message (data : Frame) : RemoteEvent
  | closed (code : Nat) (reason : String) : RemoteEvent
  | error (msg : String) : RemoteEvent

/-- Events observed on the client socket after establishment. -/
inductive ClientEvent where
  | message (m : Frame) : ClientEvent
  | closed : ClientEvent
  | error (msg : String) : ClientEvent

/-- An attempted action on the client socket. -/
inductive ClientAttempt where
  | send (f : Frame) : ClientAttempt
  | close : ClientAttempt
deriving Repr, DecidableEq

/-- An attempted action on the upstream socket. -/
inductive RemoteAttempt where
  | send (f : Frame) : RemoteAttempt
  | close : RemoteAttempt
deriving Repr, DecidableEq

/-- The per-event handlers wsProxy.js wires on the upstream socket
(`remoteWs.on(...)`, lines 32 to 56): `open` sends `proxy_ready` to the
client, every `message` is forwarded to the client as-is, `close` closes the
client socket, `error` sends the structured error frame to the client. -/
def remoteEventActions : RemoteEvent → List ClientAttempt
  | RemoteEvent.opened => [ClientAttempt.send (Frame.text proxyReadyFrame)]
  | RemoteEvent.message d => [ClientAttempt.send d]
  | RemoteEvent.closed _ _ => [ClientAttempt.close]
  | RemoteEvent.error _ => [ClientAttempt.send (Frame.text remoteErrorFrame)]

/-- The per-event handlers wsProxy.js wires on the client socket
(`clientWs.on(...)`, lines 58 to 96): `message` runs the client message
handler and sends its output upstream, `close` and `error` close the upstream
socket. -/
def clientEventActions : ClientEvent → List RemoteAttempt
  | ClientEvent.message m => (clientMessageHandler m).map RemoteAttempt.send
  | ClientEvent.closed => [RemoteAttempt.close]
  | ClientEvent.error _ => [RemoteAttempt.close]

/-- Best-effort execution of a list of attempts: `env` says whether the k-th
attempt of the run throws; the outcome is recorded and — mirroring the empty
`catch` blocks and the ignored send callbacks of wsProxy.js — discarded, so
execution continues identically in both cases. -/
def execAttempts {α : Type} (env : Nat → Bool) : Nat → List α → List (α × Bool)
  | _, [] => []
  | k, a :: as =>
    match env k with
    | true => (a, true) :: execAttempts env (k + 1) as
    | false => (a, false) :: execAttempts env (k + 1) as

/-- Process a list of socket events through a per-event handler, executing
every produced attempt best-effort under the failure environment `env`. -/
def processEvents {ε α : Type} (handler : ε → List α) (env : Nat → Bool) :
    Nat → List ε → List (α × Bool)
  | _, [] => []
  | k, e :: es =>
    execAttempts env k (handler e) ++
      processEvents handler env (k + (handler e).length) es

/-- The frame sent when the client presents an unknown or expired session id
(server.js line 113). -/
def invalidSessionFrame : String :=
  jsonStringify
    (Json.obj [("type", Json.str "error"), ("message", Json.str "Invalid sessionId or session expired")])

/-- The frame sent by the `createProxyConnection(...).catch` handler of
server.js (line 122). -/
def proxyErrorFrame : String :=
  jsonStringify (Json.obj [("type", Json.str "error"), ("message", Json.str "Proxy error")])

/-- The in-memory `sessionsMap` of server.js: a JS `Map` from session id to
the stored remote-session value, modelled as an insertion-ordered association
list with unique keys. -/
def Registry := List (String × Json)

def mapGet (m : Registry) (k : String) : Option Json := lookupMember k m

def mapSet (m : Registry) (k : String) (v : Json) : Registry := insertMember k v m

/-- Outcome of a `/ws` connection attempt with respect to the upstream side. -/
inductive BridgeOutcome where
  | noBridge : BridgeOutcome
  | rejected (msg : String) : BridgeOutcome
  | upstreamOpen (url : Json) : BridgeOutcome

/-- The `remoteSession.wsUrl || remoteSession.ws_url || remoteSession.websocketUrl`
chain of wsProxy.js line 18: the value of a JS or-chain is its first truthy
operand, else its last operand (absent properties are `undefined`, i.e.
`none`). -/
def jsOrVal (a b : Option Json) : Option Json :=
  match a with
  | some v => if jsTruthy v then some v else b
  | none => b

/-- The connectable upstream address resolved by wsProxy.js lines 18 to 22:
the or-chain value if it is truthy (otherwise `if (!remoteWsUrl)` rejects). -/
def resolveRemoteWsUrl (remoteSession : Json) : Option Json :=
  match
    jsOrVal (getField remoteSession "wsUrl")
      (jsOrVal (getField remoteSession "ws_url") (getField remoteSession "websocketUrl"))
  with
  | some v => if jsTruthy v then some v else none
  | none => none

/-- The establishment phase of `createProxyConnection` (wsProxy.js lines 14 to
30): reject with the source error message when no upstream address is
derivable, otherwise construct the upstream WebSocket toward the resolved
address. -/
def createProxyEstablish (remoteSession : Json) : BridgeOutcome :=
  match resolveRemoteWsUrl remoteSession with
  | none =>
    BridgeOutcome.rejected "Remote session does not include a wsUrl. Check session creation response."
  | some url => BridgeOutcome.upstreamOpen url

/-- The `/ws` connection handler of server.js (lines 103 to 125): look up the
session id in `sessionsMap`; a missing or falsy entry gets the invalid-session
error frame and a close; otherwise `createProxyConnection` runs, and its
rejection is turned by the `.catch` handler into a best-effort proxy-error
frame plus a close.  Returns the attempts made on the client socket during
establishment together with the bridge outcome. -/
def wsConnectionHandler (m : Registry) (sessionId : Option String) :
    List ClientAttempt × BridgeOutcome :=
  match
    (match sessionId with
     | some sid => mapGet m sid
     | none => none)
  with
  | none =>
    ([ClientAttempt.send (Frame.text invalidSessionFrame), ClientAttempt.close],
      BridgeOutcome.noBridge)
  | some rs =>
    if jsTruthy rs then
      match createProxyEstablish rs with
      | BridgeOutcome.rejected e =>
        ([ClientAttempt.send (Frame.text proxyErrorFrame), ClientAttempt.close],
          BridgeOutcome.rejected e)
      | outcome => ([], outcome)
    else
      ([ClientAttempt.send (Frame.text invalidSessionFrame), ClientAttempt.close],
        BridgeOutcome.noBridge)

/-- The remote session-creation response as consumed by the `/session` handler:
`ok`/`status` from the fetch response, the body as text (read in the failure
branch) and as parsed JSON (read in the success branch). -/
structure FetchResponse where
  ok : Bool
  status : Nat
  bodyText : String
  bodyJson : Json

/-- An HTTP response produced via `res.status(...).json(...)` / `res.json(...)`. -/
inductive HttpResponse where
  | json (status : Nat) (body : Json) : HttpResponse

/-- The `/session` handler of server.js (lines 36 to 91), given the remote
endpoint response and the fresh uuid: a non-ok remote response yields a 500
with a fixed error string and the remote body text, leaving `sessionsMap`
unchanged; an ok response stores the parsed body verbatim under the fresh id
and returns ok/sessionId/remoteSession. -/
def sessionHandler (resp : FetchResponse) (freshId : String) (m : Registry) :
    HttpResponse × Registry :=
  if resp.ok then
    (HttpResponse.json 200
        (Json.obj
          [("ok", Json.bool true), ("sessionId", Json.str freshId),
            ("remoteSession", resp.bodyJson)]),
      mapSet m freshId resp.bodyJson)
  else
    (HttpResponse.json 500
        (Json.obj
          [("error", Json.str "Failed to create remote session"),
            ("details", Json.str resp.bodyText)]),
      m)

/-- One externally driven operation against the server state: a `/session`
request (with the remote response it observed and the uuid it drew) or a `/ws`
connection attempt.  The `/ws` path never writes to `sessionsMap` — server.js
contains no delete and its only `set` is in the `/session` handler. -/
inductive ServerOp where
  | createSession (resp : FetchResponse) (freshId : String) : ServerOp
  | wsConnect (sessionId : Option String) : ServerOp

def applyOp (m : Registry) : ServerOp → Registry
  | ServerOp.createSession resp freshId => (sessionHandler resp freshId m).2
  | ServerOp.wsConnect _ => m

def applyOps (m : Registry) : List ServerOp → Registry
  | [] => m
  | op :: ops => applyOps (applyOp m op) ops

/-- An operation does not reuse the identifier `id` as a freshly drawn uuid. -/
def opAvoidsId (id : String) : ServerOp → Prop
  | ServerOp.createSession _ freshId => freshId ≠ id
  | ServerOp.wsConnect _ => True

theorem execAttempts_map_fst {α : Type} (env : Nat → Bool) :
    ∀ (k : Nat) (as : List α), (execAttempts env k as).map Prod.fst = as := by
  intro k as
  induction as generalizing k with
  | nil => rfl
  | cons a tl ih => cases h : env k <;> simp [execAttempts, h, ih]

theorem processEvents_map_fst {ε α : Type} (handler : ε → List α) (env : Nat → Bool) :
    ∀ (k : Nat) (es : List ε),
      (processEvents handler env k es).map Prod.fst = es.flatMap handler := by
  intro k es
  induction es generalizing k with
  | nil => rfl
  | cons e tl ih => simp [processEvents, execAttempts_map_fst, ih]

theorem lookupMember_insert_self (k : String) (v : Json) (m : List (String × Json)) :
    lookupMember k (insertMember k v m) = some v := by
  induction m with
  | nil => simp [insertMember, lookupMember]
  | cons hd tl ih =>
    obtain ⟨k1, v1⟩ := hd
    by_cases hk : k1 = k
    · simp [insertMember, hk, lookupMember]
    · simp [insertMember, hk, lookupMember, ih]

theorem lookupMember_insert_ne (k1 k : String) (v : Json) (m : List (String × Json))
    (h : k1 ≠ k) : lookupMember k (insertMember k1 v m) = lookupMember k m := by
  induction m with
  | nil => simp [insertMember, lookupMember, h]
  | cons hd tl ih =>
    obtain ⟨k2, v2⟩ := hd
    by_cases hk : k2 = k1
    · subst hk
      simp [insertMember, lookupMember, h]
    · simp [insertMember, hk, lookupMember, ih]

theorem mapGet_applyOps (id : String) (data : Json) :
    ∀ (ops : List ServerOp) (m : Registry), mapGet m id = some data →
      (∀ op ∈ ops, opAvoidsId id op) → mapGet (applyOps m ops) id = some data := by
  intro ops
  induction ops with
  | nil => intro m hm _; exact hm
  | cons op tl ih =>
    intro m hm hav
    have hop := hav op (List.mem_cons_self op tl)
    have htl : ∀ o ∈ tl, opAvoidsId id o := fun o ho => hav o (List.mem_cons_of_mem _ ho)
    cases op with
    | wsConnect sid => exact ih m hm htl
    | createSession resp freshId =>
      apply ih _ _ htl
      by_cases hok : resp.ok
      · simp only [applyOps, applyOp, sessionHandler, hok, if_true]
        unfold mapGet mapSet
        rw [lookupMember_insert_ne _ _ _ _ hop]
        exact hm
      · simp only [applyOps, applyOp, sessionHandler, hok, if_false]
        exact hm

theorem isStopControlTry_error (j : Json) (h : isStopControlTry j = Except.error ()) :
    j = Json.null := by
  cases j with
  | null => rfl
  | bool b => exact absurd h (by simp [isStopControlTry, propAccess, isStr])
  | num raw => exact absurd h (by simp [isStopControlTry, propAccess, isStr])
  | str s => exact absurd h (by simp [isStopControlTry, propAccess, isStr])
  | arr xs => exact absurd h (by simp [isStopControlTry, propAccess, isStr])
  | obj ms =>
    exfalso
    simp only [isStopControlTry, propAccess] at h
    split at h
    · exact Except.noConfusion h
    · exact Except.noConfusion h

/-- Counterexample to claim C1: the client text frame " null" parses
successfully (to JSON null) and is not a control/stop frame, yet the bridge
does not forward its re-serialization "null": the property access of the
condition check throws a TypeError on null, and the catch forwards the
original text " null" verbatim. -/
theorem claim_C1_counterexample :
    jsonParse " null" = some Json.null ∧
      isStopControlTry Json.null = Except.error () ∧
      clientMessageHandler (Frame.text " null") = [Frame.text " null"] ∧
      jsonStringify Json.null = "null" ∧
      clientMessageHandler (Frame.text " null") ≠ [Frame.text (jsonStringify Json.null)] := by
  have hs : jsonStringify Json.null = "null" := by
    simp only [jsonStringify, jsonSize]
    rfl
  refine ⟨rfl, rfl, rfl, hs, ?_⟩
  rw [hs]
  decide

/-- Claim C1 as amended: a parsed control/stop frame yields exactly one
upstream interrupt frame and never the original frame; every other
successfully parsed frame whose condition check does not throw is forwarded
upstream re-serialized from the parsed value with no field transformation; a
frame parsing to JSON null — the only value on which the check throws — is
forwarded verbatim by the catch, like an unparseable frame. -/
theorem claim_C1 (s : String) (j : Json) (hp : jsonParse s = some j) :
    (isStopControlTry j = Except.ok true →
      clientMessageHandler (Frame.text s) = [Frame.text interruptFrame] ∧ s ≠ interruptFrame) ∧
      (isStopControlTry j = Except.ok false →
        clientMessageHandler (Frame.text s) = [Frame.text (jsonStringify j)]) ∧
      (isStopControlTry j = Except.error () →
        j = Json.null ∧ clientMessageHandler (Frame.text s) = [Frame.text s]) := by
  refine ⟨?_, ?_, ?_⟩
  · intro hstop
    refine ⟨by simp [clientMessageHandler, hp, hstop], ?_⟩
    intro heq
    rw [heq] at hp
    have hlit : interruptFrame = "\x7b\"type\":\"input.stop\"\x7d" := by
      simp [interruptFrame, jsonStringify, jsonSize]
      rfl
    have hval : jsonParse interruptFrame = some (Json.obj [("type", Json.str "input.stop")]) := by
      rw [hlit]
      rfl
    rw [hval] at hp
    injection hp with h
    have hfalse : isStopControlTry (Json.obj [("type", Json.str "input.stop")]) =
        Except.ok false := rfl
    rw [← h, hfalse] at hstop
    exact absurd (Except.ok.inj hstop) (by decide)
  · intro hns
    simp [clientMessageHandler, hp, hns]
  · intro herr
    refine ⟨isStopControlTry_error j herr, ?_⟩
    simp [clientMessageHandler, hp, herr]

/-- Witness for claim C1 at the concrete stop-control frame. -/
theorem claim_C1_witness :
    jsonParse "\x7b\"type\":\"control\",\"action\":\"stop\"\x7d" =
        some (Json.obj [("type", Json.str "control"), ("action", Json.str "stop")]) ∧
      isStopControlTry (Json.obj [("type", Json.str "control"), ("action", Json.str "stop")]) =
          Except.ok true ∧
      clientMessageHandler (Frame.text "\x7b\"type\":\"control\",\"action\":\"stop\"\x7d") =
          [Frame.text interruptFrame] ∧
      "\x7b\"type\":\"control\",\"action\":\"stop\"\x7d" ≠ interruptFrame := by
  have h :=
    (claim_C1 "\x7b\"type\":\"control\",\"action\":\"stop\"\x7d"
        (Json.obj [("type", Json.str "control"), ("action", Json.str "stop")]) rfl).1 rfl
  exact ⟨rfl, rfl, h.1, h.2⟩

/-- Claim C2: a `/ws` connection whose session identifier is not in the
registry gets exactly the invalid-session structured error frame followed by a
close of the client connection, and no upstream connection is attempted. -/
theorem claim_C2 (m : Registry) (sid : String) (h : mapGet m sid = none) :
    wsConnectionHandler m (some sid) =
        ([ClientAttempt.send (Frame.text invalidSessionFrame), ClientAttempt.close],
          BridgeOutcome.noBridge) ∧
      invalidSessionFrame =
        "\x7b\"type\":\"error\",\"message\":\"Invalid sessionId or session expired\"\x7d" := by
  constructor
  · simp [wsConnectionHandler, h]
  · simp [invalidSessionFrame, jsonStringify, jsonSize]
    rfl

/-- Witness for claim C2 on an empty registry and the session id "bogus". -/
theorem claim_C2_witness :
    mapGet [] "bogus" = none ∧
      wsConnectionHandler [] (some "bogus") =
        ([ClientAttempt.send (Frame.text invalidSessionFrame), ClientAttempt.close],
          BridgeOutcome.noBridge) :=
  ⟨rfl, (claim_C2 [] "bogus" rfl).1⟩

/-- Claim C3: every frame received from upstream after establishment, binary
or structured, is forwarded to the client unmodified with its framing kind,
boundaries and arrival order preserved, losslessly and in order, for every
failure environment of the best-effort sends. -/
theorem claim_C3 (env : Nat → Bool) (k : Nat) (fs : List Frame) :
    (processEvents remoteEventActions env k (fs.map RemoteEvent.message)).map Prod.fst =
      fs.map ClientAttempt.send := by
  rw [processEvents_map_fst]
  induction fs with
  | nil => rfl
  | cons f tl ih => simp [remoteEventActions, ih]

/-- Claim C4: on an upstream connection-level error the bridge best-effort
sends the client the structured error frame, and the client connection is
closed on the close event that the transport delivers after an error;
formalized over any upstream event trace with a close event after the error,
for every failure environment. -/
theorem claim_C4 (env : Nat → Bool) (k : Nat) (pre mid post : List RemoteEvent)
    (emsg : String) (code : Nat) (reason : String) :
    (processEvents remoteEventActions env k
          (pre ++ RemoteEvent.error emsg :: (mid ++ RemoteEvent.closed code reason :: post))).map
        Prod.fst =
      pre.flatMap remoteEventActions ++
        ClientAttempt.send (Frame.text remoteErrorFrame) ::
          (mid.flatMap remoteEventActions ++
            ClientAttempt.close :: post.flatMap remoteEventActions) := by
  rw [processEvents_map_fst]
  simp [remoteEventActions]

/-- Claim C5: a close or error on either connection immediately (within the
handler of that very event) produces a best-effort close attempt on the other
connection, and the attempts made never depend on whether any attempt failed —
failures are swallowed, never escalated, and processing always continues. -/
theorem claim_C5 :
    (∀ (env : Nat → Bool) (k : Nat) (es : List RemoteEvent),
        (processEvents remoteEventActions env k es).map Prod.fst = es.flatMap remoteEventActions) ∧
      (∀ (env : Nat → Bool) (k : Nat) (es : List ClientEvent),
        (processEvents clientEventActions env k es).map Prod.fst = es.flatMap clientEventActions) ∧
      (∀ (code : Nat) (reason : String),
        remoteEventActions (RemoteEvent.closed code reason) = [ClientAttempt.close]) ∧
      clientEventActions ClientEvent.closed = [RemoteAttempt.close] ∧
      (∀ msg : String, clientEventActions (ClientEvent.error msg) = [RemoteAttempt.close]) := by
  refine ⟨?_, ?_, ?_, rfl, ?_⟩
  · intro env k es
    exact processEvents_map_fst _ env k es
  · intro env k es
    exact processEvents_map_fst _ env k es
  · intro code reason
    rfl
  · intro msg
    rfl

/-- Counterexample to claim C6: the HTTP 500 sent to the client on a
non-success remote response does not carry the remote status — remote
responses with statuses 503 and 404 and the same body produce identical
client responses, whose body holds only a fixed error string and the remote
body text. -/
theorem claim_C6_counterexample :
    sessionHandler ⟨false, 503, "upstream down", Json.null⟩ "fresh-id" [] =
        sessionHandler ⟨false, 404, "upstream down", Json.null⟩ "fresh-id" [] ∧
      sessionHandler ⟨false, 503, "upstream down", Json.null⟩ "fresh-id" [] =
        (HttpResponse.json 500
            (Json.obj
              [("error", Json.str "Failed to create remote session"),
                ("details", Json.str "upstream down")]),
          ([] : Registry)) :=
  ⟨rfl, rfl⟩

/-- Claim C6 as amended: on a non-success remote response the Session
Initiator returns HTTP 500 carrying a fixed error string and the remote body
(the remote status is not sent to the client), and registers no session; on a
success response it stores the remote response verbatim under the fresh
identifier — retrievable afterwards, all other entries untouched — and returns
the identifier. -/
theorem claim_C6 (resp : FetchResponse) (freshId : String) (m : Registry)
    ( _hfresh : mapGet m freshId = none) :
    (resp.ok = false →
      sessionHandler resp freshId m =
        (HttpResponse.json 500
            (Json.obj
              [("error", Json.str "Failed to create remote session"),
                ("details", Json.str resp.bodyText)]),
          m)) ∧
      (resp.ok = true →
        sessionHandler resp freshId m =
          (HttpResponse.json 200
              (Json.obj
                [("ok", Json.bool true), ("sessionId", Json.str freshId),
                  ("remoteSession", resp.bodyJson)]),
            mapSet m freshId resp.bodyJson) ∧
          mapGet (mapSet m freshId resp.bodyJson) freshId = some resp.bodyJson ∧
          ∀ k2, k2 ≠ freshId → mapGet (mapSet m freshId resp.bodyJson) k2 = mapGet m k2) := by
  constructor
  · intro hok
    simp [sessionHandler, hok]
  · intro hok
    refine ⟨by simp [sessionHandler, hok], lookupMember_insert_self freshId resp.bodyJson m, ?_⟩
    intro k2 hk2
    exact lookupMember_insert_ne freshId k2 resp.bodyJson m (fun hc => hk2 hc.symm)

/-- Witness for claim C6 at a concrete success response and fresh id. -/
theorem claim_C6_witness :
    mapGet [] "id-1" = none ∧
      sessionHandler ⟨true, 200, "", Json.obj [("wsUrl", Json.str "wss://up")]⟩ "id-1" [] =
          (HttpResponse.json 200
              (Json.obj
                [("ok", Json.bool true), ("sessionId", Json.str "id-1"),
                  ("remoteSession", Json.obj [("wsUrl", Json.str "wss://up")])]),
            mapSet [] "id-1" (Json.obj [("wsUrl", Json.str "wss://up")])) ∧
        mapGet (mapSet [] "id-1" (Json.obj [("wsUrl", Json.str "wss://up")])) "id-1" =
          some (Json.obj [("wsUrl", Json.str "wss://up")]) := by
  have h :=
    (claim_C6 ⟨true, 200, "", Json.obj [("wsUrl", Json.str "wss://up")]⟩ "id-1" [] rfl).2 rfl
  exact ⟨rfl, h.1, h.2.1⟩

/-- Claim C7: a client structured-looking frame that fails to parse as JSON is
forwarded upstream verbatim as the original payload — exactly one frame, never
dropped, and the handler is a total function (the parse failure never
escapes). -/
theorem claim_C7 (s : String) (h : jsonParse s = none) :
    clientMessageHandler (Frame.text s) = [Frame.text s] := by
  simp [clientMessageHandler, h]

/-- Witness for claim C7 at a concrete unparseable frame. -/
theorem claim_C7_witness :
    jsonParse "not json" = none ∧
      clientMessageHandler (Frame.text "not json") = [Frame.text "not json"] :=
  ⟨rfl, claim_C7 "not json" rfl⟩

/-- Claim C8: when a registered session carries no derivable upstream address,
the bridge rejects with the missing-address error before any upstream
WebSocket is constructed, and the client gets the best-effort structured error
frame followed by a close. -/
theorem claim_C8 (m : Registry) (sid : String) (rs : Json) (h1 : mapGet m sid = some rs)
    (h2 : jsTruthy rs = true) (h3 : resolveRemoteWsUrl rs = none) :
    wsConnectionHandler m (some sid) =
      ([ClientAttempt.send (Frame.text proxyErrorFrame), ClientAttempt.close],
        BridgeOutcome.rejected
          "Remote session does not include a wsUrl. Check session creation response.") := by
  simp [wsConnectionHandler, h1, h2, createProxyEstablish, h3]

/-- Witness for claim C8: a registered session whose stored value has no
wsUrl, ws_url or websocketUrl field. -/
theorem claim_C8_witness :
    mapGet [("sid-1", Json.obj [("sessionToken", Json.str "tok")])] "sid-1" =
        some (Json.obj [("sessionToken", Json.str "tok")]) ∧
      jsTruthy (Json.obj [("sessionToken", Json.str "tok")]) = true ∧
      resolveRemoteWsUrl (Json.obj [("sessionToken", Json.str "tok")]) = none ∧
      wsConnectionHandler [("sid-1", Json.obj [("sessionToken", Json.str "tok")])] (some "sid-1") =
        ([ClientAttempt.send (Frame.text proxyErrorFrame), ClientAttempt.close],
          BridgeOutcome.rejected
            "Remote session does not include a wsUrl. Check session creation response.") :=
  ⟨rfl, rfl, rfl,
    claim_C8 [("sid-1", Json.obj [("sessionToken", Json.str "tok")])] "sid-1"
      (Json.obj [("sessionToken", Json.str "tok")]) rfl rfl rfl⟩

/-- Counterexample to claim C9: the client text frame whose content is exactly
the interrupt JSON text is not a control/stop frame, yet the bridge forwards
it upstream as a frame identical to the interrupt frame — so inputs other than
control/stop can cause that frame to be sent. -/
theorem claim_C9_counterexample :
    jsonParse "\x7b\"type\":\"input.stop\"\x7d" =
        some (Json.obj [("type", Json.str "input.stop")]) ∧
      isStopControl (Json.obj [("type", Json.str "input.stop")]) = false ∧
      clientMessageHandler (Frame.text "\x7b\"type\":\"input.stop\"\x7d") =
        [Frame.text interruptFrame] :=
  ⟨rfl, rfl, rfl⟩

/-- Claim C9 as amended: the upstream interrupt frame emitted for a client
control/stop frame is exactly the JSON text of `{ type: "input.stop" }`; the
interrupt translation fires only for control/stop frames; every other parsed
frame takes the plain re-serialization path — except a frame parsing to JSON
null, which is forwarded verbatim via the caught TypeError — and the
forwarded text can coincide with the interrupt text when the client sends
that very content. -/
theorem claim_C9 (s : String) (j : Json) (hp : jsonParse s = some j) :
    interruptFrame = "\x7b\"type\":\"input.stop\"\x7d" ∧
      (isStopControlTry j = Except.ok true →
        clientMessageHandler (Frame.text s) = [Frame.text interruptFrame]) ∧
      (isStopControlTry j = Except.ok false →
        clientMessageHandler (Frame.text s) = [Frame.text (jsonStringify j)]) ∧
      (j = Json.null → clientMessageHandler (Frame.text s) = [Frame.text s]) := by
  refine ⟨?_, ?_, ?_, ?_⟩
  · simp [interruptFrame, jsonStringify, jsonSize]
    rfl
  · intro hstop
    simp [clientMessageHandler, hp, hstop]
  · intro hns
    simp [clientMessageHandler, hp, hns]
  · intro hnull
    subst hnull
    simp [clientMessageHandler, hp, isStopControlTry, propAccess]

/-- Witness for claim C9 at a concrete non-stop structured frame. -/
theorem claim_C9_witness :
    jsonParse "\x7b\"type\":\"metadata\",\"foo\":\"bar\"\x7d" =
        some (Json.obj [("type", Json.str "metadata"), ("foo", Json.str "bar")]) ∧
      interruptFrame = "\x7b\"type\":\"input.stop\"\x7d" ∧
      clientMessageHandler (Frame.text "\x7b\"type\":\"metadata\",\"foo\":\"bar\"\x7d") =
        [Frame.text
          (jsonStringify (Json.obj [("type", Json.str "metadata"), ("foo", Json.str "bar")]))] := by
  have h :=
    claim_C9 "\x7b\"type\":\"metadata\",\"foo\":\"bar\"\x7d"
      (Json.obj [("type", Json.str "metadata"), ("foo", Json.str "bar")]) rfl
  exact ⟨rfl, h.1, h.2.2.1 rfl⟩

/-- Claim C10: registry entries are never removed or overwritten after
creation — after any sequence of further operations whose fresh uuids avoid
the stored id, the lookup still returns the stored params verbatim, and a
bridge attempt with that id still establishes (opening the upstream
connection toward the same resolved address), with no single-use eviction. -/
theorem claim_C10 (m : Registry) (id : String) (data : Json) (ops : List ServerOp)
    (hstored : mapGet m id = some data) (hfresh : ∀ op ∈ ops, opAvoidsId id op)
    (url : Json) (htruthy : jsTruthy data = true)
    (hurl : resolveRemoteWsUrl data = some url) :
    mapGet (applyOps m ops) id = some data ∧
      wsConnectionHandler (applyOps m ops) (some id) = ([], BridgeOutcome.upstreamOpen url) := by
  have hkeep := mapGet_applyOps id data ops m hstored hfresh
  refine ⟨hkeep, ?_⟩
  simp [wsConnectionHandler, hkeep, htruthy, createProxyEstablish, hurl]

/-- Witness for claim C10: one stored session survives a second bridge attempt
and an interleaved session creation, and still establishes. -/
theorem claim_C10_witness :
    mapGet [("sess", Json.obj [("wsUrl", Json.str "wss://up")])] "sess" =
        some (Json.obj [("wsUrl", Json.str "wss://up")]) ∧
      jsTruthy (Json.obj [("wsUrl", Json.str "wss://up")]) = true ∧
      resolveRemoteWsUrl (Json.obj [("wsUrl", Json.str "wss://up")]) =
        some (Json.str "wss://up") ∧
      wsConnectionHandler
          (applyOps [("sess", Json.obj [("wsUrl", Json.str "wss://up")])]
            [ServerOp.wsConnect (some "sess"),
              ServerOp.createSession ⟨true, 200, "", Json.null⟩ "other",
              ServerOp.wsConnect (some "sess")])
          (some "sess") =
        ([], BridgeOutcome.upstreamOpen (Json.str "wss://up")) := by
  have h :=
    claim_C10 [("sess", Json.obj [("wsUrl", Json.str "wss://up")])] "sess"
      (Json.obj [("wsUrl", Json.str "wss://up")])
      [ServerOp.wsConnect (some "sess"),
        ServerOp.createSession ⟨true, 200, "", Json.null⟩ "other",
        ServerOp.wsConnect (some "sess")]
      rfl
      (by
        intro op hop
        simp only [List.mem_cons, List.not_mem_nil, or_false] at hop
        rcases hop with rfl | rfl | rfl
        · trivial
        · intro hc
          exact absurd hc (by decide)
        · trivial)
      (Json.str "wss://up") rfl rfl
  exact ⟨rfl, rfl, rfl, h.2⟩
